import Mathlib

/-!
Verification development for the timed-promise repository
(`src/brief-promise.mjs`, class `BriefPromise extends Promise`).

The JavaScript class is embedded shallowly:

* `JSNumber` / `JSValue` model the dynamically typed arguments
  (`typeof x === 'number'` distinguishes numbers, including the
  non-finite `Infinity` and `NaN`; `null` is a separate value;
  objects carry shape flags for `instanceof Promise`,
  `typeof === 'function'` and `instanceof Error` tests).
* `Sched` models the host timer table (`setTimeout` / `clearTimeout`);
  a `FutureState` holds the promise settlement state together with the
  `timeoutId` property of a `BriefPromise` instance.
* `timeoutMethod` is the `timeout(milliseconds)` method;
  `innerSettleStep` is the settlement forwarding plus the `.finally`
  disarm installed by the constructor; `timerFireStep` is the armed
  timer firing and invoking the captured `cancel` (the outer `reject`).
* `thenMethod`, `wrapExecutor` and `anyStep` embed the overridden
  `then`, the static `wrap`, and the fallback combinator inside the
  static `any`.
-/

namespace BriefPromiseModel

/-- A JavaScript number: a finite value (modelled as an integer, which
covers every argument exercised here) or one of the non-finite values
`Infinity`, `-Infinity`, `NaN`.  All of them satisfy
`typeof x === 'number'`. -/
inductive JSNumber where
  | fin (i : Int)
  | posInf
  | negInf
  | nan
deriving DecidableEq, Repr

/-- JavaScript number-to-string conversion as used in template literals,
restricted to the values of `JSNumber`. -/
def jsNumToString : JSNumber → String
  | .fin i => toString i
  | .posInf => "Infinity"
  | .negInf => "-Infinity"
  | .nan => "NaN"

/-- Shape of a JavaScript object value: which `instanceof` / `typeof`
tests it passes, the `message` property when it is an error, and a
reference id used to look the object up in an environment (a promise id
or a function id). -/
structure JSObject where
  isPromise : Bool := false
  isFunction : Bool := false
  isError : Bool := false
  isTimeoutError : Bool := false
  message : String := ""
  refId : Nat := 0
deriving DecidableEq, Repr

/-- A JavaScript value, as far as the class under study inspects one. -/
inductive JSValue where
  | num (n : JSNumber)
  | null
  | undef
  | str (s : String)
  | boolean (b : Bool)
  | object (o : JSObject)
deriving DecidableEq, Repr

/-- The test `typeof x === 'number'`. -/
def typeofNumber : JSValue → Bool
  | .num _ => true
  | _ => false

/-- The test `typeof x === 'function'`. -/
def typeofFunction : JSValue → Bool
  | .object o => o.isFunction
  | _ => false

/-- The test `x instanceof Promise`. -/
def instanceofPromise : JSValue → Bool
  | .object o => o.isPromise
  | _ => false

/-- The test `x instanceof Error`. -/
def instanceofError : JSValue → Bool
  | .object o => o.isError
  | _ => false

/-- The spec's "finite number": a number that is neither infinite nor
`NaN`.  The source never performs this test; it is needed to state the
claims that speak of finite numbers. -/
def isFiniteNumber : JSValue → Bool
  | .num (.fin _) => true
  | _ => false

/-- Reference id of an object value (promise id / function id); `0` for
non-objects, which never reach an environment lookup. -/
def refIdOf : JSValue → Nat
  | .object o => o.refId
  | _ => 0

/-- The string handed to `Error`'s constructor by
`PromiseTimeoutError`: `typeof message !== 'number' ? message :
`Promise timed out after ${message} milliseconds.``, followed by the
`Error` constructor's own stringification of a non-string argument. -/
def timeoutErrorMessage : JSValue → String
  | .num n => "Promise timed out after " ++ jsNumToString n ++ " milliseconds."
  | .str s => s
  | .undef => ""
  | .null => "null"
  | .boolean b => if b then "true" else "false"
  | .object _ => "[object Object]"

/-- `new BriefPromise.TimeoutError(message)`: an `Error` instance of the
`PromiseTimeoutError` class carrying `timeoutErrorMessage message`. -/
def TimeoutError.mk (message : JSValue) : JSValue :=
  .object { isError := true, isTimeoutError := true,
            message := timeoutErrorMessage message }

/-! ### The host timer table -/

abbrev TimerId := Nat

/-- One armed timer: its id, the value the callback will deliver to the
captured `cancel` when it fires, and the requested delay. -/
structure TimerEntry where
  id : TimerId
  payload : JSValue
  delay : JSNumber
deriving DecidableEq, Repr

/-- The host timer table: armed, not-yet-fired, not-yet-cleared timers,
plus a fresh-id counter (host timer ids are positive). -/
structure Sched where
  nextId : TimerId
  timers : List TimerEntry
deriving DecidableEq, Repr

/-- The empty timer table. -/
def sched0 : Sched := { nextId := 1, timers := [] }

/-- `setTimeout(callback, delay)`: arm a fresh timer, return its id. -/
def setTimeout (s : Sched) (payload : JSValue) (delay : JSNumber) :
    Sched × TimerId :=
  ({ nextId := s.nextId + 1,
     timers := s.timers ++ [{ id := s.nextId, payload := payload, delay := delay }] },
   s.nextId)

/-- `clearTimeout(id)`: disarm the timer with that id; a no-op when no
such timer is armed (already fired, already cleared, or never armed). -/
def clearTimeout (s : Sched) (id : TimerId) : Sched :=
  { s with timers := s.timers.filter (fun t => t.id ≠ id) }

/-! ### A BriefPromise instance -/

/-- Outcome of a settled promise. -/
inductive Outcome where
  | fulfilled (v : JSValue)
  | rejected (e : JSValue)
deriving DecidableEq, Repr

/-- Observable state of one `BriefPromise`: its settlement state
(`none` = pending; a promise settles at most once, later completion
calls are no-ops) and its `timeoutId` property (`null` = `none`). -/
structure FutureState where
  settled : Option Outcome
  timeoutId : Option TimerId
deriving DecidableEq, Repr

/-- The `timeout(milliseconds)` method body.  `typeof milliseconds ===
'number'`: clear a currently stored timer if any, arm a new one whose
callback rejects through `cancel` with a fresh `TimeoutError` built from
`milliseconds`, and store its id.  `milliseconds === null` with a stored
timer: clear it and null the property.  Anything else falls through. -/
def timeoutMethod (milliseconds : JSValue) (fs : FutureState) (s : Sched) :
    FutureState × Sched :=
  match milliseconds with
  | .num n =>
    let s1 := match fs.timeoutId with
      | some id => clearTimeout s id
      | none => s
    let armed := setTimeout s1 (TimeoutError.mk (.num n)) n
    ({ fs with timeoutId := some armed.2 }, armed.1)
  | .null =>
    match fs.timeoutId with
    | some id => ({ fs with timeoutId := none }, clearTimeout s id)
    | none => (fs, s)
  | _ => (fs, s)

/-- The `timeout` method together with its `return this`: the method's
result value is the very instance it was invoked on (identified by
`self`). -/
def timeoutCall (self : Nat) (milliseconds : JSValue) (fs : FutureState)
    (s : Sched) : (FutureState × Sched) × Nat :=
  (timeoutMethod milliseconds fs s, self)

/-! ### Constructor, settlement and timer firing -/

/-- What an executor does with its two completion entry points when it
is invoked: call `resolve`, call `reject`, or throw synchronously. -/
inductive ExecAction where
  | callResolve (v : JSValue)
  | callReject (e : JSValue)
  | throws (e : JSValue)
deriving DecidableEq, Repr

/-- How `new Promise(executor)` settles for each executor behaviour: the
`Promise` constructor runs the executor inside an implicit try/catch and
turns a synchronous throw into a rejection. -/
def newPromiseOutcome : ExecAction → Outcome
  | .callResolve v => .fulfilled v
  | .callReject e => .rejected e
  | .throws e => .rejected e

/-- The nested promise settling: the constructor's
`.then((v) => resolve(v), (e) => reject(e))` forwards the outcome to the
outer promise (first completion call wins; later ones are no-ops), and
the chained `.finally` clears the stored timer if `this.timeoutId` is
set. -/
def innerSettleStep (out : Outcome) (fs : FutureState) (s : Sched) :
    FutureState × Sched :=
  let fs1 := match fs.settled with
    | none => { fs with settled := some out }
    | some _ => fs
  let s1 := match fs1.timeoutId with
    | some id => clearTimeout s id
    | none => s
  (fs1, s1)

/-- An armed timer firing: the timer leaves the table and its callback
runs `this.cancel(new BriefPromise.TimeoutError(milliseconds))`, which
rejects the outer promise if it is still pending (and is a no-op
otherwise, by the first-completion-wins rule). -/
def timerFireStep (fs : FutureState) (s : Sched) : FutureState × Sched :=
  match s.timers with
  | [] => (fs, s)
  | t :: rest =>
    let fs1 := match fs.settled with
      | none => { fs with settled := some (.rejected t.payload) }
      | some _ => fs
    (fs1, { s with timers := rest })

/-- State of a freshly constructed `BriefPromise`: pending, `timeoutId`
initialised to `null`, then `this.timeout(milliseconds)` applied (the
constructor's last statement; the parameter defaults to `null`). -/
def constructState (milliseconds : JSValue) : FutureState × Sched :=
  timeoutMethod milliseconds { settled := none, timeoutId := none } sched0

/-- Events that can hit one instance after construction. -/
inductive Ev where
  | timeoutEv (ms : JSValue)
  | innerSettleEv (out : Outcome)
  | timerFireEv
deriving DecidableEq, Repr

/-- One event step. -/
def stepEv (st : FutureState × Sched) (e : Ev) : FutureState × Sched :=
  match e with
  | .timeoutEv ms => timeoutMethod ms st.1 st.2
  | .innerSettleEv out => innerSettleStep out st.1 st.2
  | .timerFireEv => timerFireStep st.1 st.2

/-- A whole lifetime: construction with `milliseconds`, then a trace of
events. -/
def run (milliseconds : JSValue) (tr : List Ev) : FutureState × Sched :=
  tr.foldl stepEv (constructState milliseconds)

/-- Constructor plus the asynchronous settlement of the nested promise
running the user executor: the executor's action determines the nested
outcome, which is forwarded to the outer promise. -/
def constructorRun (a : ExecAction) (milliseconds : JSValue) :
    FutureState × Sched :=
  stepEv (constructState milliseconds) (.innerSettleEv (newPromiseOutcome a))

/-! ### The overridden `then` method -/

abbrev FunId := Nat

/-- Environment giving the behaviour of each one-argument callback
(`onFulfilled` / `onRejected`): called on a value, it either returns
normally (`Except.ok`) or throws (`Except.error`). -/
abbrev CallEnv := FunId → JSValue → Except JSValue JSValue

/-- Environment giving the behaviour of each zero-argument function
handed to `wrap`: it either returns normally or throws. -/
abbrev Call0Env := Nat → Except JSValue JSValue

/-- The executor `(resolve, reject) => { resolve(onFulfilled(value)); }`
built by the fulfilment handler of the timed `then` branch: it calls
`resolve` with the callback's return value, or throws the callback's
exception before reaching `resolve`. -/
def fulfillExecAction (env : CallEnv) (onFulfilled : FunId) (value : JSValue) :
    ExecAction :=
  match env onFulfilled value with
  | .ok r => .callResolve r
  | .error e => .throws e

/-- The executor `(resolve, reject) => { reject(onRejected(reason)); }`
built by the rejection handler of the timed `then` branch: it calls
`reject` with the callback's return value, or throws the callback's
exception before reaching `reject`. -/
def rejectExecAction (env : CallEnv) (onRejected : FunId) (reason : JSValue) :
    ExecAction :=
  match env onRejected reason with
  | .ok r => .callReject r
  | .error e => .throws e

/-- Native `Promise.prototype.then(onFulfilled, onRejected)` semantics
on a settled producer: a handler's normal return fulfils the
continuation, its throw rejects it, and an absent rejection handler
passes the rejection through. -/
def nativeThen (env : CallEnv) (onFulfilled : FunId)
    (onRejected : Option FunId) (producer : Outcome) : Outcome :=
  match producer with
  | .fulfilled v =>
    match env onFulfilled v with
    | .ok r => .fulfilled r
    | .error e => .rejected e
  | .rejected e =>
    match onRejected with
    | none => .rejected e
    | some g =>
      match env g e with
      | .ok r => .fulfilled r
      | .error ex => .rejected ex

/-- What the continuation returned by the overridden `then` does once
the producer has settled: either it behaves as a plain native
continuation settling with an outcome, or the handler returned a fresh
`new BriefPromise(executor, milliseconds)` which the continuation
adopts — a timed future with its own window `ms` whose (untimed)
outcome is `o`. -/
inductive ContinuationResult where
  | plain (o : Outcome)
  | viaTimed (o : Outcome) (ms : JSNumber)
deriving DecidableEq, Repr

/-- The overridden `then(onFulfilled, onRejected = null, milliseconds =
null)`.  `typeof milliseconds !== 'number'`: delegate to
`super.then(onFulfilled, onRejected)`.  Otherwise wrap each present
handler so that it returns `new BriefPromise(executor, milliseconds)`
around the handler call (`!onRejected` keeps the rejection slot
`null`). -/
def thenMethod (env : CallEnv) (onFulfilled : FunId)
    (onRejected : Option FunId) (milliseconds : JSValue)
    (producer : Outcome) : ContinuationResult :=
  match milliseconds with
  | .num n =>
    match producer with
    | .fulfilled v =>
      .viaTimed (newPromiseOutcome (fulfillExecAction env onFulfilled v)) n
    | .rejected e =>
      match onRejected with
      | none => .plain (.rejected e)
      | some g =>
        .viaTimed (newPromiseOutcome (rejectExecAction env g e)) n
  | _ => .plain (nativeThen env onFulfilled onRejected producer)

/-! ### The static `wrap` -/

/-- What the executor built by `BriefPromise.wrap(object, milliseconds)`
does: register on `object` to mirror its outcome, or call one of the
completion entry points synchronously. -/
inductive WrapStep where
  | mirrorPromise (pid : Nat)
  | resolveWith (v : JSValue)
  | rejectWith (e : JSValue)
deriving DecidableEq, Repr

/-- The executor of `BriefPromise.wrap`: `object instanceof Promise` →
mirror it via `object.then(resolve, reject)`; else `typeof object ===
'function'` → `try { resolve(object()) } catch (error) { reject(error) }`;
else `object instanceof Error` → `reject(object)`; else
`resolve(object)`. -/
def wrapExecutor (env0 : Call0Env) (object : JSValue) : WrapStep :=
  if instanceofPromise object then
    .mirrorPromise (refIdOf object)
  else if typeofFunction object then
    match env0 (refIdOf object) with
    | .ok v => .resolveWith v
    | .error e => .rejectWith e
  else if instanceofError object then
    .rejectWith object
  else
    .resolveWith object

/-- `BriefPromise.wrap(object, milliseconds)` returns
`new BriefPromise(executor, milliseconds)`: the executor's behaviour
paired with the construction state under the given duration. -/
def wrap (env0 : Call0Env) (object milliseconds : JSValue) :
    WrapStep × (FutureState × Sched) :=
  (wrapExecutor env0 object, constructState milliseconds)

/-! ### The fallback combinator inside the static `any` -/

/-- The generic error rejected by the fallback once every input promise
has rejected. -/
def noPromisesError : JSValue :=
  .object { isError := true, message := "No promises were fulfilled." }

/-- A settlement event of one input promise of the fallback combinator:
input number `i` fulfils with `v`, or input number `i` rejects. -/
inductive AnyEv where
  | fulfillEv (i : Nat) (v : JSValue)
  | rejectEv (i : Nat)
deriving DecidableEq, Repr

/-- Index of the input promise an event belongs to. -/
def AnyEv.idx : AnyEv → Nat
  | .fulfillEv i _ => i
  | .rejectEv i => i

/-- Whether the event is a rejection. -/
def AnyEv.isReject : AnyEv → Bool
  | .fulfillEv _ _ => false
  | .rejectEv _ => true

/-- State of the fallback combinator's promise: the `rejectCounter`
variable and the settlement state of the promise the fallback executor
created (`none` = pending; first completion call wins). -/
structure AnyState where
  rejectCounter : Int
  result : Option Outcome
deriving DecidableEq, Repr

/-- The handlers the fallback registers on each input: on fulfilment,
`resolve(value)`; on rejection, `if (--rejectCounter === 0)
reject(new Error('No promises were fulfilled.'))`. -/
def anyStep (st : AnyState) (e : AnyEv) : AnyState :=
  match e with
  | .fulfillEv _ v =>
    match st.result with
    | none => { st with result := some (.fulfilled v) }
    | some _ => st
  | .rejectEv _ =>
    let c := st.rejectCounter - 1
    if c = 0 then
      match st.result with
      | none => { rejectCounter := c, result := some (.rejected noPromisesError) }
      | some _ => { st with rejectCounter := c }
    else
      { st with rejectCounter := c }

/-- Running the fallback over `n` input promises through a sequence of
settlement events: `rejectCounter` starts at `promises.length = n`, the
promise starts pending. -/
def anyFallbackRun (n : Nat) (evs : List AnyEv) : AnyState :=
  evs.foldl anyStep { rejectCounter := (n : Int), result := none }

/-- A sequence of settlement events is valid for `n` input promises when
every event belongs to one of the `n` inputs and no input settles
twice. -/
def validEvents (n : Nat) (evs : List AnyEv) : Prop :=
  (∀ e ∈ evs, AnyEv.idx e < n) ∧ (evs.map AnyEv.idx).Nodup

/-- Value of the first fulfilment event of the sequence, if any. -/
def firstFulfillValue : List AnyEv → Option JSValue
  | [] => none
  | .fulfillEv _ v :: _ => some v
  | .rejectEv _ :: rest => firstFulfillValue rest

/-- `BriefPromise.any(promises, milliseconds)` ends with
`return BriefPromise.wrap(any(promises), milliseconds)`: the inner
combinator's promise (native or fallback) is wrapped with the given
duration. -/
def anyStatic (env0 : Call0Env) (innerPromiseId : Nat)
    (milliseconds : JSValue) : WrapStep × (FutureState × Sched) :=
  wrap env0 (.object { isPromise := true, refId := innerPromiseId })
    milliseconds

/-! ### The TimedPromise variant (src/unnamed/part_002)

The repository's second copy of the class differs in its constructor:
`executorWrap = async (resolve, reject) => { cancel = reject; try { let
result = await executor(); if (this.timeoutId) clearTimeout(this.timeoutId);
resolve(result); } catch (error) { reject(error); } }`.  The user
executor is invoked as `executor()` — with zero arguments, so inside it
the names `resolve` and `reject` are `undefined` and calling either
throws a `TypeError` — and the catch path rejects without any
`clearTimeout`. -/

/-- The `TypeError` raised by calling an undefined entry point
(`resolve(...)` or `reject(...)` with the parameter unbound). -/
def typeErrorOf (name : String) : JSValue :=
  .object { isError := true, message := name ++ " is not a function" }

/-- What a producer written for the documented `(resolve, reject)`
interface does when it runs: call its first parameter, call its second
parameter, throw synchronously, return a value synchronously without
touching the parameters, or return a promise that later fulfils or
rejects (an `async` operation). -/
inductive TPExecAction where
  | callResolve (v : JSValue)
  | callReject (e : JSValue)
  | throws (e : JSValue)
  | returns (v : JSValue)
  | asyncOk (v : JSValue)
  | asyncErr (e : JSValue)
deriving DecidableEq, Repr

/-- Synchronous behaviour of `await executor()` in the TimedPromise
constructor: a synchronous throw (including the `TypeError` from calling
an undefined entry point) propagates during `super(...)` itself, while a
returned value or a returned promise's outcome is delivered to the
`await` continuation after construction completes. -/
inductive TPSync where
  | syncThrow (e : JSValue)
  | deferred (r : Except JSValue JSValue)
deriving Repr

/-- How each producer behaviour plays out under the zero-argument call
`executor()`: attempted entry-point calls raise a `TypeError`
synchronously; a plain return defers its value; an async producer
defers its promise's outcome. -/
def tpProducerSync : TPExecAction → TPSync
  | .callResolve _ => .syncThrow (typeErrorOf "resolve")
  | .callReject _ => .syncThrow (typeErrorOf "reject")
  | .throws e => .syncThrow e
  | .returns v => .deferred (.ok v)
  | .asyncOk v => .deferred (.ok v)
  | .asyncErr e => .deferred (.error e)

/-- The `await` continuation of the TimedPromise constructor: on a
delivered value it clears the stored timer if `this.timeoutId` is set
and resolves; on a delivered error the catch path rejects **without**
`clearTimeout`.  Settlement is first-call-wins as always. -/
def tpSettleStep (r : Except JSValue JSValue) (fs : FutureState)
    (s : Sched) : FutureState × Sched :=
  match r with
  | .ok v =>
    let s1 := match fs.timeoutId with
      | some id => clearTimeout s id
      | none => s
    let fs1 := match fs.settled with
      | none => { fs with settled := some (.fulfilled v) }
      | some _ => fs
    (fs1, s1)
  | .error e =>
    let fs1 := match fs.settled with
      | none => { fs with settled := some (.rejected e) }
      | some _ => fs
    (fs1, s)

/-- A whole TimedPromise construction: a synchronous throw from
`executor()` rejects during `super(...)`, before the constructor's final
`this.timeout(milliseconds)` arms a timer on the already-settled
instance; a deferred outcome arrives as a microtask after construction,
so the timer is armed first and the settlement step runs second. -/
def tpConstructorRun (a : TPExecAction) (milliseconds : JSValue) :
    FutureState × Sched :=
  match tpProducerSync a with
  | .syncThrow e =>
    let st := tpSettleStep (.error e)
      { settled := none, timeoutId := none } sched0
    timeoutMethod milliseconds st.1 st.2
  | .deferred r =>
    let st := timeoutMethod milliseconds
      { settled := none, timeoutId := none } sched0
    tpSettleStep r st.1 st.2

/-- Net behaviour of the executor built by `TimedPromise.wrap(object,
milliseconds)` when the TimedPromise constructor invokes it with zero
arguments.  Promise input: `object.then(...)` registers reactions and
the executor returns `undefined` (the registered reactions call the
undefined `resolve`/`reject` later, affecting nothing).  Function input:
`object()` runs, then `resolve(...)` throws a `TypeError`, the branch's
own catch calls the undefined `reject`, and that second `TypeError`
escapes (likewise when `object()` itself threw, losing the original
error).  Error input: `reject(object)` throws the `TypeError`.  Plain
input: `resolve(object)` throws the `TypeError`. -/
def tpWrapExecAction (env0 : Call0Env) (object : JSValue) : TPExecAction :=
  if instanceofPromise object then
    .returns .undef
  else if typeofFunction object then
    match env0 (refIdOf object) with
    | .ok _ => .throws (typeErrorOf "reject")
    | .error _ => .throws (typeErrorOf "reject")
  else if instanceofError object then
    .throws (typeErrorOf "reject")
  else
    .throws (typeErrorOf "resolve")

/-- `TimedPromise.wrap(object, milliseconds)` returns
`new TimedPromise(executor, milliseconds)` with the dispatch executor
above. -/
def tpWrapRun (env0 : Call0Env) (object milliseconds : JSValue) :
    FutureState × Sched :=
  tpConstructorRun (tpWrapExecAction env0 object) milliseconds

/-! ### Timer-lifecycle invariant -/

/-- Timer-lifecycle invariant of one instance: at most one timer armed,
and every armed timer is the one the instance's `timeoutId` stores. -/
def TimerInv (st : FutureState × Sched) : Prop :=
  st.2.timers.length ≤ 1 ∧ ∀ t ∈ st.2.timers, st.1.timeoutId = some t.id

theorem filter_ne_eq_nil {l : List TimerEntry} {id : TimerId}
    (h : ∀ t ∈ l, t.id = id) :
    l.filter (fun t => t.id ≠ id) = [] := by
  simpa using h

theorem clearTimeout_stored_timers_nil {fs : FutureState} {s : Sched}
    {id : TimerId} (hid : fs.timeoutId = some id)
    (h : ∀ t ∈ s.timers, fs.timeoutId = some t.id) :
    (clearTimeout s id).timers = [] := by
  apply filter_ne_eq_nil
  intro t ht
  have := h t ht
  rw [hid] at this
  exact (Option.some_injective _ this).symm

theorem stored_none_timers_nil {fs : FutureState} {s : Sched}
    (hid : fs.timeoutId = none)
    (h : ∀ t ∈ s.timers, fs.timeoutId = some t.id) :
    s.timers = [] := by
  cases htm : s.timers with
  | nil => rfl
  | cons t rest =>
    have := h t (by simp [htm])
    rw [hid] at this
    exact absurd this (by simp)

theorem timeoutMethod_settled (ms : JSValue) (fs : FutureState) (s : Sched) :
    (timeoutMethod ms fs s).1.settled = fs.settled := by
  cases ms <;> simp [timeoutMethod] <;> cases h : fs.timeoutId <;> simp [h]

theorem innerSettleStep_timeoutId (out : Outcome) (fs : FutureState)
    (s : Sched) : (innerSettleStep out fs s).1.timeoutId = fs.timeoutId := by
  cases h : fs.settled <;> simp [innerSettleStep, h]

theorem timerInv_constructState (ms : JSValue) :
    TimerInv (constructState ms) := by
  cases ms <;>
    simp [TimerInv, constructState, timeoutMethod, setTimeout, sched0,
          clearTimeout]

theorem timerInv_innerSettle {fs : FutureState} {s : Sched}
    (h : TimerInv (fs, s)) (out : Outcome) :
    (innerSettleStep out fs s).2.timers = [] := by
  obtain ⟨-, h2⟩ := h
  have h2' : ∀ t ∈ s.timers, fs.timeoutId = some t.id := by simpa using h2
  cases hid : fs.timeoutId with
  | none =>
    have htm := stored_none_timers_nil hid h2'
    cases hset : fs.settled <;> simp [innerSettleStep, hset, hid, htm]
  | some old =>
    have hnil : (clearTimeout s old).timers = [] :=
      clearTimeout_stored_timers_nil hid h2'
    cases hset : fs.settled <;> simp [innerSettleStep, hset, hid, hnil]

theorem timerInv_timerFire {fs : FutureState} {s : Sched}
    (h : TimerInv (fs, s)) :
    (timerFireStep fs s).2.timers = [] := by
  obtain ⟨h1, -⟩ := h
  cases htm : s.timers with
  | nil => simp [timerFireStep, htm]
  | cons t rest =>
    have hr : rest = [] := by
      rw [htm] at h1
      simpa using h1
    cases hset : fs.settled <;> simp [timerFireStep, htm, hset, hr]

theorem timerInv_step {st : FutureState × Sched} (h : TimerInv st)
    (e : Ev) : TimerInv (stepEv st e) := by
  obtain ⟨fs, s⟩ := st
  obtain ⟨h1, h2⟩ := h
  have h2' : ∀ t ∈ s.timers, fs.timeoutId = some t.id := by simpa using h2
  cases e with
  | timeoutEv ms =>
    cases ms with
    | num n =>
      cases hid : fs.timeoutId with
      | none =>
        have htm : s.timers = [] := stored_none_timers_nil hid h2'
        constructor <;>
          simp [stepEv, timeoutMethod, hid, setTimeout, htm]
      | some old =>
        have hnil : (clearTimeout s old).timers = [] :=
          clearTimeout_stored_timers_nil hid h2'
        constructor <;>
          simp [stepEv, timeoutMethod, hid, setTimeout, hnil,
                show (clearTimeout s old).nextId = s.nextId from rfl]
    | null =>
      cases hid : fs.timeoutId with
      | none =>
        have heq : stepEv (fs, s) (.timeoutEv .null) = (fs, s) := by
          simp [stepEv, timeoutMethod, hid]
        rw [heq]
        exact ⟨h1, h2⟩
      | some old =>
        have hnil : (clearTimeout s old).timers = [] :=
          clearTimeout_stored_timers_nil hid h2'
        constructor <;> simp [stepEv, timeoutMethod, hid, hnil]
    | undef => exact ⟨h1, h2⟩
    | str s => exact ⟨h1, h2⟩
    | boolean b => exact ⟨h1, h2⟩
    | object o => exact ⟨h1, h2⟩
  | innerSettleEv out =>
    have hnil := timerInv_innerSettle ⟨h1, h2⟩ out
    exact ⟨by simp [stepEv, hnil], by simp [stepEv, hnil]⟩
  | timerFireEv =>
    have hnil := timerInv_timerFire ⟨h1, h2⟩
    exact ⟨by simp [stepEv, hnil], by simp [stepEv, hnil]⟩

theorem timerInv_foldl {st : FutureState × Sched} (h : TimerInv st)
    (tr : List Ev) : TimerInv (tr.foldl stepEv st) := by
  induction tr generalizing st with
  | nil => exact h
  | cons e rest ih => exact ih (timerInv_step h e)

theorem timerInv_run (ms : JSValue) (tr : List Ev) :
    TimerInv (run ms tr) :=
  timerInv_foldl (timerInv_constructState ms) tr

theorem clearTimeout_idem (s : Sched) (id : TimerId) :
    clearTimeout (clearTimeout s id) id = clearTimeout s id := by
  simp [clearTimeout, List.filter_filter]

/-! ### Lemmas about the fallback combinator -/

theorem anyStep_latch {st : AnyState} {o : Outcome}
    (h : st.result = some o) (e : AnyEv) : (anyStep st e).result = some o := by
  cases e with
  | fulfillEv i v => simp [anyStep, h]
  | rejectEv i =>
    by_cases hc : st.rejectCounter - 1 = 0 <;> simp [anyStep, hc, h]

theorem anyFoldl_latch {evs : List AnyEv} {st : AnyState} {o : Outcome}
    (h : st.result = some o) : (evs.foldl anyStep st).result = some o := by
  induction evs generalizing st with
  | nil => exact h
  | cons e rest ih => exact ih (anyStep_latch h e)

theorem anyFoldl_all_reject {evs : List AnyEv} {st : AnyState}
    (hrej : ∀ e ∈ evs, e.isReject = true) (hres : st.result = none)
    (hlt : (evs.length : Int) < st.rejectCounter) :
    evs.foldl anyStep st =
      { rejectCounter := st.rejectCounter - evs.length, result := none } := by
  induction evs generalizing st with
  | nil =>
    obtain ⟨c, r⟩ := st
    simp at hres
    simp [hres]
  | cons e rest ih =>
    cases e with
    | fulfillEv i v =>
      have := hrej _ (List.mem_cons_self _ rest)
      simp [AnyEv.isReject] at this
    | rejectEv i =>
      have hc : ¬(st.rejectCounter - 1 = 0) := by
        simp at hlt
        omega
      have hstep : anyStep st (.rejectEv i) =
          { rejectCounter := st.rejectCounter - 1, result := st.result } := by
        simp [anyStep, hc]
      rw [List.foldl_cons, hstep]
      have h2 : List.foldl anyStep
          { rejectCounter := st.rejectCounter - 1, result := st.result } rest =
          { rejectCounter := (st.rejectCounter - 1) - rest.length,
            result := none } :=
        ih (fun e he => hrej e (List.mem_cons_of_mem _ he)) hres
          (by simp at hlt ⊢; omega)
      rw [h2]
      congr 1
      simp
      omega

theorem anyFoldl_all_reject_exact {evs : List AnyEv} {st : AnyState}
    (hrej : ∀ e ∈ evs, e.isReject = true) (hres : st.result = none)
    (hne : evs ≠ []) (heq : (evs.length : Int) = st.rejectCounter) :
    (evs.foldl anyStep st).result = some (.rejected noPromisesError) := by
  induction evs generalizing st with
  | nil => exact absurd rfl hne
  | cons e rest ih =>
    cases e with
    | fulfillEv i v =>
      have := hrej _ (List.mem_cons_self _ rest)
      simp [AnyEv.isReject] at this
    | rejectEv i =>
      cases hr : rest with
      | nil =>
        have hcount : st.rejectCounter = 1 := by
          rw [hr] at heq
          simpa using heq.symm
        have hstep : anyStep st (.rejectEv i) =
            { rejectCounter := 0, result := some (.rejected noPromisesError) } := by
          simp [anyStep, hcount, hres]
        simp [hr, hstep]
      | cons e2 rest2 =>
        rw [← hr]
        have hlen : (rest.length : Int) + 1 = st.rejectCounter := by
          simpa using heq
        have hc : ¬(st.rejectCounter - 1 = 0) := by
          rw [hr] at hlen
          simp at hlen
          omega
        have hstep : anyStep st (.rejectEv i) =
            { rejectCounter := st.rejectCounter - 1, result := st.result } := by
          simp [anyStep, hc]
        rw [List.foldl_cons, hstep]
        exact ih (fun e he => hrej e (List.mem_cons_of_mem _ he)) hres
          (by simp [hr]) (by simp; omega)

theorem firstFulfill_split {evs : List AnyEv} {v : JSValue}
    (h : firstFulfillValue evs = some v) :
    ∃ pre i rest, evs = pre ++ .fulfillEv i v :: rest ∧
      ∀ e ∈ pre, e.isReject = true := by
  induction evs with
  | nil => simp [firstFulfillValue] at h
  | cons e rest ih =>
    cases e with
    | fulfillEv i w =>
      simp [firstFulfillValue] at h
      exact ⟨[], i, rest, by simp [h], by simp⟩
    | rejectEv i =>
      obtain ⟨pre, j, rest', heqd, hpre⟩ :=
        ih (by simpa [firstFulfillValue] using h)
      refine ⟨.rejectEv i :: pre, j, rest', by simp [heqd], ?_⟩
      intro e he
      rcases List.mem_cons.mp he with he | he
      · simp [he, AnyEv.isReject]
      · exact hpre e he

theorem nodup_lt_length_le {l : List Nat} {n : Nat}
    (hnd : l.Nodup) (hlt : ∀ x ∈ l, x < n) : l.length ≤ n := by
  have hsub : l ⊆ List.range n := fun x hx => List.mem_range.mpr (hlt x hx)
  have := (List.subperm_of_subset hnd hsub).length_le
  simpa using this

theorem firstFulfill_none_all_reject {evs : List AnyEv}
    (h : firstFulfillValue evs = none) : ∀ e ∈ evs, e.isReject = true := by
  induction evs with
  | nil => simp
  | cons e rest ih =>
    cases e with
    | fulfillEv i v => simp [firstFulfillValue] at h
    | rejectEv i =>
      intro e' he'
      rcases List.mem_cons.mp he' with he' | he'
      · simp [he', AnyEv.isReject]
      · exact ih (by simpa [firstFulfillValue] using h) e' he'

theorem anyFallback_first_success {n : Nat} {evs : List AnyEv} {v : JSValue}
    (hval : validEvents n evs) (hf : firstFulfillValue evs = some v) :
    (anyFallbackRun n evs).result = some (.fulfilled v) := by
  obtain ⟨pre, i, rest, heq, hpre⟩ := firstFulfill_split hf
  obtain ⟨hlt, hnd⟩ := hval
  have hs : List.Sublist (pre.map AnyEv.idx ++ [i]) (evs.map AnyEv.idx) := by
    rw [heq]
    simp only [List.map_append, List.map_cons, AnyEv.idx]
    exact List.Sublist.append_left
      (List.cons_sublist_cons.mpr (List.nil_sublist _)) _
  have hnd' : (pre.map AnyEv.idx ++ [i]).Nodup := List.Nodup.sublist hs hnd
  have hmem : ∀ x ∈ pre.map AnyEv.idx ++ [i], x < n := by
    intro x hx
    rcases List.mem_append.mp hx with hx | hx
    · obtain ⟨e, he, rfl⟩ := List.mem_map.mp hx
      exact hlt e (by rw [heq]; exact List.mem_append_left _ he)
    · have hx' : x = i := by simpa using hx
      subst hx'
      exact hlt (.fulfillEv x v)
        (by rw [heq]; exact List.mem_append_right _ (List.mem_cons_self _ _))
  have hprelen : pre.length + 1 ≤ n := by
    have := nodup_lt_length_le hnd' hmem
    simpa using this
  unfold anyFallbackRun
  rw [heq, List.foldl_append, List.foldl_cons]
  have hpre_run :
      pre.foldl anyStep { rejectCounter := (n : Int), result := none } =
        { rejectCounter := (n : Int) - pre.length, result := none } :=
    anyFoldl_all_reject hpre rfl (by push_cast; omega)
  rw [hpre_run]
  have hstep :
      anyStep { rejectCounter := (n : Int) - pre.length, result := none }
        (.fulfillEv i v) =
      { rejectCounter := (n : Int) - pre.length,
        result := some (.fulfilled v) } := by
    simp [anyStep]
  rw [hstep]
  exact anyFoldl_latch rfl

theorem anyFallback_all_rejected {n : Nat} {evs : List AnyEv}
    (hrej : ∀ e ∈ evs, e.isReject = true) (hne : evs ≠ [])
    (hlen : evs.length = n) :
    (anyFallbackRun n evs).result = some (.rejected noPromisesError) :=
  anyFoldl_all_reject_exact hrej rfl hne (by rw [hlen])

theorem anyFallback_pending {n : Nat} {evs : List AnyEv}
    (hrej : ∀ e ∈ evs, e.isReject = true) (hlen : evs.length < n) :
    (anyFallbackRun n evs).result = none := by
  unfold anyFallbackRun
  rw [anyFoldl_all_reject hrej rfl (by push_cast; omega)]

/-! ### Claim theorems -/

/-- C1 (counterexample to the claim as stated): `Infinity` is not a
finite number and not the `null` sentinel, so by the claim the call
`timeout(Infinity)` would have to be a no-op; but `typeof Infinity ===
'number'`, so the method cancels the active timer and arms a new one —
on a state with timer `1` armed, the call changes the state. -/
theorem C1_counterexample :
    isFiniteNumber (.num .posInf) = false ∧
    (JSValue.num .posInf) ≠ .null ∧
    timeoutMethod (.num .posInf)
        { settled := none, timeoutId := some 1 }
        { nextId := 2,
          timers := [{ id := 1, payload := TimeoutError.mk (.num (.fin 5)),
                       delay := .fin 5 }] } ≠
      ({ settled := none, timeoutId := some 1 },
       { nextId := 2,
         timers := [{ id := 1, payload := TimeoutError.mk (.num (.fin 5)),
                      delay := .fin 5 }] }) := by
  refine ⟨rfl, by simp, ?_⟩
  intro h
  have := congrArg (fun p => p.1.timeoutId) h
  simp [timeoutMethod, setTimeout, clearTimeout] at this

/-- C1 (amended): `timeout(d)` for any number `d` (finite or not —
the code tests `typeof d === 'number'`, not finiteness) cancels the
stored timer and arms a fresh one for `d` carrying a TimeoutError built
from `d`; for the `null` sentinel with a stored timer it cancels it and
clears the handle; `null` without a stored timer and every non-number,
non-null argument are no-ops; and the call always returns the instance
it was invoked on. -/
theorem C1_timeout_behaviour (n : JSNumber) (v ms : JSValue)
    (fs : FutureState) (s : Sched) (oldId : TimerId) (self : Nat) :
    ((timeoutMethod (.num n) fs s).1.timeoutId = some s.nextId) ∧
    ((timeoutMethod (.num n) fs s).1.settled = fs.settled) ∧
    ({ id := s.nextId, payload := TimeoutError.mk (.num n), delay := n } ∈
        (timeoutMethod (.num n) fs s).2.timers) ∧
    (fs.timeoutId = some oldId → oldId ≠ s.nextId →
        ∀ t ∈ (timeoutMethod (.num n) fs s).2.timers, t.id ≠ oldId) ∧
    (fs.timeoutId = some oldId →
        timeoutMethod .null fs s =
          ({ fs with timeoutId := none }, clearTimeout s oldId)) ∧
    (fs.timeoutId = none → timeoutMethod .null fs s = (fs, s)) ∧
    (typeofNumber v = false → v ≠ .null → timeoutMethod v fs s = (fs, s)) ∧
    ((timeoutCall self ms fs s).2 = self) := by
  refine ⟨?_, timeoutMethod_settled _ _ _, ?_, ?_, ?_, ?_, ?_, rfl⟩
  · cases hid : fs.timeoutId <;>
      simp [timeoutMethod, hid, setTimeout, clearTimeout]
  · cases hid : fs.timeoutId <;>
      simp [timeoutMethod, hid, setTimeout, clearTimeout]
  · intro hid hne t ht
    simp [timeoutMethod, hid, setTimeout, clearTimeout] at ht
    rcases ht with ⟨-, hpred⟩ | ht
    · exact hpred
    · subst ht
      intro hc
      exact hne hc.symm
  · intro hid
    simp [timeoutMethod, hid]
  · intro hid
    simp [timeoutMethod, hid]
  · intro htype hnull
    cases v <;> simp_all [typeofNumber, timeoutMethod]

/-- C1 witness: the amended behaviour at concrete inputs — arming with
`5` on a state holding timer `1` stores the fresh id `2`; `timeout(null)`
clears the stored timer; a string argument is a no-op. -/
theorem C1_timeout_behaviour_witness :
    ((timeoutMethod (.num (.fin 5))
        { settled := none, timeoutId := some 1 }
        { nextId := 2, timers := [] }).1.timeoutId = some 2) ∧
    (timeoutMethod .null { settled := none, timeoutId := some 1 }
        { nextId := 2, timers := [] } =
      ({ settled := none, timeoutId := none },
       clearTimeout { nextId := 2, timers := [] } 1)) ∧
    (timeoutMethod (.str "x") { settled := none, timeoutId := some 1 }
        { nextId := 2, timers := [] } =
      ({ settled := none, timeoutId := some 1 },
       { nextId := 2, timers := [] })) := by
  have h := C1_timeout_behaviour (.fin 5) (.str "x") .null
    { settled := none, timeoutId := some 1 }
    { nextId := 2, timers := [] } 1 7
  exact ⟨h.1, h.2.2.2.2.1 rfl, h.2.2.2.2.2.2.1 rfl (by simp)⟩

/-- C2 (counterexample to the claim as stated): `Infinity` is not a
finite number, so by the claim `then(f, null, Infinity)` would have to
behave exactly like the native continuation operator; but the code only
tests `typeof milliseconds !== 'number'`, so `Infinity` takes the
wrapping branch and the continuation adopts a fresh timed future
instead of settling plainly. -/
theorem C2_counterexample :
    isFiniteNumber (.num .posInf) = false ∧
    thenMethod (fun _ v => .ok v) 0 none (.num .posInf)
        (.fulfilled (.str "x")) ≠
      .plain (nativeThen (fun _ v => .ok v) 0 none (.fulfilled (.str "x"))) := by
  exact ⟨rfl, by decide⟩

/-- C2 (amended): when the duration is not a number, `then` delegates to
the substrate's native continuation operator unchanged; when it is a
number `n` (finite or not — the code tests `typeof`, not finiteness),
the continuation wraps the handler invocation inside a fresh
`BriefPromise` constructed with duration `n`, which arms its own
independent timer; and when `onRejected` is absent, rejections
propagate untouched without wrapping. -/
theorem C2_then_behaviour (env : CallEnv) (f : FunId) (g : Option FunId)
    (ms : JSValue) (n : JSNumber) (producer : Outcome) (v e : JSValue) :
    (typeofNumber ms = false →
      thenMethod env f g ms producer = .plain (nativeThen env f g producer)) ∧
    (thenMethod env f g (.num n) (.fulfilled v) =
      .viaTimed (newPromiseOutcome (fulfillExecAction env f v)) n) ∧
    (∀ gid, thenMethod env f (some gid) (.num n) (.rejected e) =
      .viaTimed (newPromiseOutcome (rejectExecAction env gid e)) n) ∧
    (thenMethod env f none (.num n) (.rejected e) = .plain (.rejected e)) ∧
    ((constructState (.num n)).2.timers =
      [{ id := 1, payload := TimeoutError.mk (.num n), delay := n }]) := by
  refine ⟨?_, rfl, fun gid => rfl, rfl, rfl⟩
  intro htype
  cases ms <;> simp_all [typeofNumber, thenMethod]

/-- C2 witness: the amended behaviour at concrete inputs — a `null`
duration gives the native continuation. -/
theorem C2_then_behaviour_witness :
    thenMethod (fun _ v => .ok v) 0 none .null (.fulfilled (.str "x")) =
      .plain (nativeThen (fun _ v => .ok v) 0 none (.fulfilled (.str "x"))) :=
  (C2_then_behaviour (fun _ v => .ok v) 0 none .null (.fin 0)
    (.fulfilled (.str "x")) (.str "x") .null).1 rfl

/-- C9: in the timed branch of `then`, a handler that throws
synchronously throws inside the executor of the fresh `BriefPromise`;
the `Promise` constructor's try/catch turns the throw into a rejection
of that future, so the exception becomes a failure outcome and never
escapes. -/
theorem C9_then_sync_throw_captured (env : CallEnv) (f gid : FunId)
    (g : Option FunId) (i : Int) (v r e : JSValue) :
    (env f v = .error e →
      thenMethod env f g (.num (.fin i)) (.fulfilled v) =
        .viaTimed (.rejected e) (.fin i)) ∧
    (env gid r = .error e →
      thenMethod env f (some gid) (.num (.fin i)) (.rejected r) =
        .viaTimed (.rejected e) (.fin i)) ∧
    (newPromiseOutcome (.throws e) = .rejected e) := by
  refine ⟨?_, ?_, rfl⟩
  · intro h
    simp [thenMethod, fulfillExecAction, h, newPromiseOutcome]
  · intro h
    simp [thenMethod, rejectExecAction, h, newPromiseOutcome]

/-- C9 witness: a concrete throwing handler is converted into a
rejection of the fresh timed future. -/
theorem C9_then_sync_throw_captured_witness :
    thenMethod (fun _ _ => .error (.str "boom")) 0 none (.num (.fin 3))
        (.fulfilled .null) =
      .viaTimed (.rejected (.str "boom")) (.fin 3) :=
  (C9_then_sync_throw_captured (fun _ _ => .error (.str "boom")) 0 0 none 3
    .null .null (.str "boom")).1 rfl

/-- C10: in the timed branch of `then` with a present `onRejected`, the
wrapper's executor is `reject(onRejected(reason))`, so the fresh future
always rejects — with the handler's return value on normal return (and
with its exception on throw) — whereas the native continuation operator
fulfils when a rejection handler returns normally. -/
theorem C10_onFailure_cannot_recover (env : CallEnv) (f gid : FunId)
    (i : Int) (e : JSValue) :
    (∃ e2, thenMethod env f (some gid) (.num (.fin i)) (.rejected e) =
      .viaTimed (.rejected e2) (.fin i)) ∧
    (∀ r, env gid e = .ok r →
      thenMethod env f (some gid) (.num (.fin i)) (.rejected e) =
        .viaTimed (.rejected r) (.fin i) ∧
      nativeThen env f (some gid) (.rejected e) = .fulfilled r) := by
  constructor
  · cases h : env gid e with
    | ok r =>
      exact ⟨r, by simp [thenMethod, rejectExecAction, h, newPromiseOutcome]⟩
    | error ex =>
      exact ⟨ex, by simp [thenMethod, rejectExecAction, h, newPromiseOutcome]⟩
  · intro r hr
    constructor
    · simp [thenMethod, rejectExecAction, hr, newPromiseOutcome]
    · simp [nativeThen, hr]

/-- C10 witness: a concrete recovering handler — the timed continuation
still rejects with the handler's return value while the native operator
would fulfil with it. -/
theorem C10_onFailure_cannot_recover_witness :
    thenMethod (fun _ _ => .ok (.str "recovered")) 0 (some 1)
        (.num (.fin 2)) (.rejected (.str "err")) =
      .viaTimed (.rejected (.str "recovered")) (.fin 2) ∧
    nativeThen (fun _ _ => .ok (.str "recovered")) 0 (some 1)
        (.rejected (.str "err")) = .fulfilled (.str "recovered") :=
  (C10_onFailure_cannot_recover (fun _ _ => .ok (.str "recovered")) 0 1 2
    (.str "err")).2 (.str "recovered") rfl

/-- BriefPromise variant: in every reachable state of an instance
(construction followed by any sequence of `timeout` calls,
nested-promise settlements and timer firings) at most one timer is armed
and it is the one `timeoutId` stores; settlement by forwarding disarms
the armed timer (none is left), settlement by timer firing consumes the
armed timer likewise, and repeated disarm calls (`clearTimeout` on an
already cleared id) are idempotent no-ops. -/
theorem bp_timer_lifecycle (ms : JSValue) (tr : List Ev) (out : Outcome)
    (sch : Sched) (id : TimerId) :
    ((run ms tr).2.timers.length ≤ 1) ∧
    (∀ t ∈ (run ms tr).2.timers, (run ms tr).1.timeoutId = some t.id) ∧
    ((innerSettleStep out (run ms tr).1 (run ms tr).2).2.timers = []) ∧
    ((timerFireStep (run ms tr).1 (run ms tr).2).2.timers = []) ∧
    (clearTimeout (clearTimeout sch id) id = clearTimeout sch id) := by
  have hinv := timerInv_run ms tr
  obtain ⟨h1, h2⟩ := hinv
  exact ⟨h1, h2, timerInv_innerSettle ⟨h1, h2⟩ out,
    timerInv_timerFire ⟨h1, h2⟩, clearTimeout_idem sch id⟩

/-- Instance of the lifecycle facts: after construction with duration
`5` the unique armed timer is the stored one (id `1`), and settlement
disarms it. -/
theorem bp_timer_lifecycle_instance :
    (run (.num (.fin 5)) []).1.timeoutId = some 1 ∧
    (innerSettleStep (.fulfilled .null) (run (.num (.fin 5)) []).1
      (run (.num (.fin 5)) []).2).2.timers = [] := by
  have h := bp_timer_lifecycle (.num (.fin 5)) [] (.fulfilled .null) sched0 1
  refine ⟨?_, h.2.2.1⟩
  exact h.2.1
    { id := 1, payload := TimeoutError.mk (.num (.fin 5)), delay := .fin 5 }
    (by decide)

/-- BriefPromise variant: the constructor runs the operation inside a
nested promise whose executor gets the two completion entry points
(`resolve` fulfils the nested promise, `reject` fails it); the nested
outcome is forwarded verbatim to the outer future's settlement;
settlement disarms the guard (no timer stays armed); and construction
applies `timeout(duration)` to the fresh instance — a no-op for the
default `null`, arming timer `1` when a numeric duration is supplied. -/
theorem bp_constructor_contract (a : ExecAction) (ms : JSValue)
    (v e : JSValue) (n : JSNumber) :
    ((constructorRun a ms).1.settled = some (newPromiseOutcome a)) ∧
    (newPromiseOutcome (.callResolve v) = .fulfilled v) ∧
    (newPromiseOutcome (.callReject e) = .rejected e) ∧
    ((constructorRun a ms).2.timers = []) ∧
    (constructState ms =
      timeoutMethod ms { settled := none, timeoutId := none } sched0) ∧
    (constructState .null = ({ settled := none, timeoutId := none }, sched0)) ∧
    ((constructState (.num n)).1.timeoutId = some 1) := by
  refine ⟨?_, rfl, rfl, ?_, rfl, rfl, rfl⟩
  · have hset : (constructState ms).1.settled = none :=
      timeoutMethod_settled ms _ _
    show (innerSettleStep (newPromiseOutcome a) (constructState ms).1
      (constructState ms).2).1.settled = some (newPromiseOutcome a)
    cases hid : (constructState ms).1.timeoutId <;>
      simp [innerSettleStep, hset, hid]
  · exact timerInv_innerSettle (timerInv_run ms []) (newPromiseOutcome a)

/-- BriefPromise variant: `wrap` resolves its input by exactly the
source's order of shape tests — promise first (mirrored), then
zero-argument invocable (invoked synchronously, normal return resolves,
throw rejects), then error object (rejected as-is), then plain value
(resolved as-is) — and the resulting future is constructed with the
given duration (arming its timer when the duration is numeric). -/
theorem bp_wrap_resolution_order (env0 : Call0Env) (value ms : JSValue)
    (n : JSNumber) (v e : JSValue) :
    (instanceofPromise value = true →
      wrapExecutor env0 value = .mirrorPromise (refIdOf value)) ∧
    (instanceofPromise value = false → typeofFunction value = true →
      env0 (refIdOf value) = .ok v → wrapExecutor env0 value = .resolveWith v) ∧
    (instanceofPromise value = false → typeofFunction value = true →
      env0 (refIdOf value) = .error e → wrapExecutor env0 value = .rejectWith e) ∧
    (instanceofPromise value = false → typeofFunction value = false →
      instanceofError value = true → wrapExecutor env0 value = .rejectWith value) ∧
    (instanceofPromise value = false → typeofFunction value = false →
      instanceofError value = false → wrapExecutor env0 value = .resolveWith value) ∧
    ((wrap env0 value ms).2 = constructState ms) ∧
    ((wrap env0 value (.num n)).2.2.timers =
      [{ id := 1, payload := TimeoutError.mk (.num n), delay := n }]) := by
  refine ⟨?_, ?_, ?_, ?_, ?_, rfl, rfl⟩
  · intro h1
    simp [wrapExecutor, h1]
  · intro h1 h2 h3
    simp [wrapExecutor, h1, h2, h3]
  · intro h1 h2 h3
    simp [wrapExecutor, h1, h2, h3]
  · intro h1 h2 h3
    simp [wrapExecutor, h1, h2, h3]
  · intro h1 h2 h3
    simp [wrapExecutor, h1, h2, h3]

/-- Instance of the dispatch facts: the four shapes at concrete
inputs — a promise is mirrored, a throwing zero-argument function
rejects with its exception, an error object rejects as-is, a plain
string resolves as-is. -/
theorem bp_wrap_resolution_order_instance :
    wrapExecutor (fun _ => .error (.str "thrown"))
        (.object { isPromise := true, refId := 4 }) = .mirrorPromise 4 ∧
    wrapExecutor (fun _ => .error (.str "thrown"))
        (.object { isFunction := true, refId := 9 }) =
      .rejectWith (.str "thrown") ∧
    wrapExecutor (fun _ => .error (.str "thrown"))
        (.object { isError := true, message := "bad" }) =
      .rejectWith (.object { isError := true, message := "bad" }) ∧
    wrapExecutor (fun _ => .error (.str "thrown")) (.str "x") =
      .resolveWith (.str "x") := by
  have h1 := bp_wrap_resolution_order (fun _ => .error (.str "thrown"))
    (.object { isPromise := true, refId := 4 }) .null (.fin 0) .null
    (.str "thrown")
  have h2 := bp_wrap_resolution_order (fun _ => .error (.str "thrown"))
    (.object { isFunction := true, refId := 9 }) .null (.fin 0) .null
    (.str "thrown")
  have h3 := bp_wrap_resolution_order (fun _ => .error (.str "thrown"))
    (.object { isError := true, message := "bad" }) .null (.fin 0) .null
    (.str "thrown")
  have h4 := bp_wrap_resolution_order (fun _ => .error (.str "thrown"))
    (.str "x") .null (.fin 0) .null (.str "thrown")
  exact ⟨h1.1 rfl, h2.2.2.1 rfl rfl rfl, h3.2.2.2.1 rfl rfl rfl,
    h4.2.2.2.2.1 rfl rfl rfl⟩

/-- C3 (code bug, evaluated at the failing input): the claim — and the
module's own documentation, "The timeout is immediately canceled when
the Promise is settled" — require every settlement path to disarm the
armed timer; in the TimedPromise variant an operation that fails
asynchronously under a 5000-unit window settles the future rejected
while timer 1 stays armed, because the constructor's catch path rejects
without `clearTimeout`, whereas the BriefPromise variant disarms on the
same failure settlement. -/
theorem C3_tp_failure_settlement_keeps_timer :
    ((tpConstructorRun (.asyncErr (.str "op failed"))
        (.num (.fin 5000))).1.settled =
      some (.rejected (.str "op failed"))) ∧
    ((tpConstructorRun (.asyncErr (.str "op failed"))
        (.num (.fin 5000))).2.timers =
      [{ id := 1, payload := TimeoutError.mk (.num (.fin 5000)),
         delay := .fin 5000 }]) ∧
    ((constructorRun (.callReject (.str "op failed"))
        (.num (.fin 5000))).1.settled =
      some (.rejected (.str "op failed"))) ∧
    ((constructorRun (.callReject (.str "op failed"))
        (.num (.fin 5000))).2.timers = []) := by
  exact ⟨rfl, rfl, rfl, rfl⟩

/-- C4 (code bug, evaluated at the failing input): the claim — and the
repository's own README and demo scripts, which construct the class
with `(resolve, reject) => ...` producers — require the operation to be
invoked with the two completion entry points and its success forwarded;
the TimedPromise variant calls `executor()` with zero arguments, so a
producer that calls `resolve(42)` hits an undefined binding and the
future rejects with a TypeError instead of fulfilling with `42` as the
BriefPromise variant does. -/
theorem C4_tp_constructor_drops_entry_points :
    ((tpConstructorRun (.callResolve (.num (.fin 42))) .null).1.settled =
      some (.rejected (typeErrorOf "resolve"))) ∧
    ((constructorRun (.callResolve (.num (.fin 42))) .null).1.settled =
      some (.fulfilled (.num (.fin 42)))) := by
  exact ⟨rfl, rfl⟩

/-- C5 (code bug, evaluated at the failing inputs): the four claimed
wrap outcomes hold for the BriefPromise variant's dispatch, but in the
TimedPromise variant the constructor invokes wrap's `(resolve, reject)`
executor with zero arguments: a promise input fulfils with `undefined`
immediately instead of mirroring, a zero-argument function input
rejects with a TypeError whether it returns or throws (the thrown error
is lost), an error object input rejects with a TypeError instead of the
error object itself, and a plain value input rejects with a TypeError
instead of fulfilling with the value. -/
theorem C5_tp_wrap_broken :
    ((tpWrapRun (fun _ => .ok .null)
        (.object { isPromise := true, refId := 4 }) .null).1.settled =
      some (.fulfilled .undef)) ∧
    ((tpWrapRun (fun _ => .ok (.str "ret"))
        (.object { isFunction := true, refId := 9 }) .null).1.settled =
      some (.rejected (typeErrorOf "reject"))) ∧
    ((tpWrapRun (fun _ => .error (.str "thrown"))
        (.object { isFunction := true, refId := 9 }) .null).1.settled =
      some (.rejected (typeErrorOf "reject"))) ∧
    ((tpWrapRun (fun _ => .ok .null)
        (.object { isError := true, message := "bad" }) .null).1.settled =
      some (.rejected (typeErrorOf "reject"))) ∧
    ((tpWrapRun (fun _ => .ok .null) (.str "x") .null).1.settled =
      some (.rejected (typeErrorOf "resolve"))) := by
  exact ⟨rfl, rfl, rfl, rfl, rfl⟩

/-- C6: a TimeoutError built from a number `d` carries the
auto-generated message embedding `d` (`Promise timed out after
<d> milliseconds.`); built from a string it carries that string
unchanged; the timer armed by `timeout(d)` carries exactly such a
TimeoutError as its rejection payload; and a timeout firing settles the
future as rejected with it. -/
theorem C6_timeout_error_message (d : JSNumber) (msg : String)
    (fs : FutureState) (s : Sched) :
    (TimeoutError.mk (.num d) =
      .object { isError := true, isTimeoutError := true,
                message := "Promise timed out after " ++ jsNumToString d ++
                           " milliseconds." }) ∧
    (TimeoutError.mk (.str msg) =
      .object { isError := true, isTimeoutError := true, message := msg }) ∧
    ({ id := s.nextId, payload := TimeoutError.mk (.num d), delay := d } ∈
      (timeoutMethod (.num d) fs s).2.timers) ∧
    ((timerFireStep (constructState (.num d)).1
        (constructState (.num d)).2).1.settled =
      some (.rejected (TimeoutError.mk (.num d)))) := by
  refine ⟨rfl, rfl, ?_, rfl⟩
  cases hid : fs.timeoutId <;>
    simp [timeoutMethod, hid, setTimeout, clearTimeout]

/-- C7: the fallback combinator used by the static `any` when the
substrate lacks a native first-success combinator fulfils with the value
of the first input to fulfil; with no fulfilment it rejects with the
generic "No promises were fulfilled." error exactly when every one of
the (at least one) inputs has rejected, staying pending while rejections
are still outstanding; and the static `any` pipes the combinator's
promise through `wrap` with the given duration, arming that window's
timer. -/
theorem C7_any_fallback (n : Nat) (evs : List AnyEv) (v : JSValue)
    (env0 : Call0Env) (pid : Nat) (d : JSNumber) :
    (validEvents n evs → firstFulfillValue evs = some v →
      (anyFallbackRun n evs).result = some (.fulfilled v)) ∧
    (firstFulfillValue evs = none → evs ≠ [] → evs.length = n →
      (anyFallbackRun n evs).result = some (.rejected noPromisesError)) ∧
    (firstFulfillValue evs = none → evs.length < n →
      (anyFallbackRun n evs).result = none) ∧
    (noPromisesError =
      .object { isError := true, message := "No promises were fulfilled." }) ∧
    ((anyStatic env0 pid (.num d)).1 = .mirrorPromise pid) ∧
    ((anyStatic env0 pid (.num d)).2.2.timers =
      [{ id := 1, payload := TimeoutError.mk (.num d), delay := d }]) := by
  refine ⟨fun hval hf => anyFallback_first_success hval hf, ?_, ?_, rfl, rfl, rfl⟩
  · intro hf hne hlen
    exact anyFallback_all_rejected (firstFulfill_none_all_reject hf) hne hlen
  · intro hf hlen
    exact anyFallback_pending (firstFulfill_none_all_reject hf) hlen

/-- C7 witness: with two inputs where input 0 rejects first and input 1
then fulfils, the fallback fulfils with input 1's value; with both
rejecting it rejects with the generic error; with only one of the two
rejected it is still pending. -/
theorem C7_any_fallback_witness :
    (anyFallbackRun 2 [.rejectEv 0, .fulfillEv 1 (.str "v")]).result =
      some (.fulfilled (.str "v")) ∧
    (anyFallbackRun 2 [.rejectEv 0, .rejectEv 1]).result =
      some (.rejected noPromisesError) ∧
    (anyFallbackRun 2 [.rejectEv 0]).result = none := by
  have h1 := C7_any_fallback 2 [.rejectEv 0, .fulfillEv 1 (.str "v")]
    (.str "v") (fun _ => .ok .null) 0 (.fin 1)
  have h2 := C7_any_fallback 2 [.rejectEv 0, .rejectEv 1]
    (.str "v") (fun _ => .ok .null) 0 (.fin 1)
  have h3 := C7_any_fallback 2 [.rejectEv 0]
    (.str "v") (fun _ => .ok .null) 0 (.fin 1)
  exact ⟨h1.1 ⟨by decide, by decide⟩ rfl, h2.2.1 rfl (by simp) rfl,
    h3.2.2.1 rfl (by decide)⟩

/-- C8: for the empty input collection the fallback combinator's
counter starts at `promises.length = 0`; no settlement event of an input
can occur (there are none), so the counter is never decremented, the
rejection is never triggered, no fulfilment can arrive, and the inner
promise stays pending forever. -/
theorem C8_any_fallback_empty (evs : List AnyEv) :
    ((anyFallbackRun 0 []).rejectCounter = 0) ∧
    (validEvents 0 evs → evs = []) ∧
    (validEvents 0 evs → (anyFallbackRun 0 evs).result = none ∧
      (anyFallbackRun 0 evs).rejectCounter = 0) := by
  have hempty : validEvents 0 evs → evs = [] := by
    intro hval
    cases hevs : evs with
    | nil => rfl
    | cons e rest =>
      have := hval.1 e (by simp [hevs])
      omega
  refine ⟨rfl, hempty, fun hval => ?_⟩
  rw [hempty hval]
  exact ⟨rfl, rfl⟩

/-- C8 witness: the empty event sequence is valid for zero inputs and
leaves the fallback pending with counter 0. -/
theorem C8_any_fallback_empty_witness :
    (anyFallbackRun 0 []).result = none ∧
    (anyFallbackRun 0 []).rejectCounter = 0 :=
  ⟨((C8_any_fallback_empty []).2.2 ⟨by decide, by decide⟩).1,
   ((C8_any_fallback_empty []).2.2 ⟨by decide, by decide⟩).2⟩

end BriefPromiseModel
